import Mathlib

/-!
Shallow embedding of the offer tier-scaling calculator and the offer
validators of the merchant dashboard.

Sources:
* `src/components/NewOfferForm.tsx` — `FOLLOWER_TIERS`, `SCALING_RULES`,
  `generateTitle`, `validateForm`, `generateScalingOffers`;
* `src/unnamed/part_007` (offers page) — `OfferFormData`, `OfferFieldErrors`,
  `computeErrors` (the edit-form validator).

Modelling conventions: JavaScript numbers holding discount values and
follower counts are embedded as `Int`; ISO date fields are `String`s where
the empty string stands for an absent/falsy value; the translation function
`t` and the locale currency formatter `currencyFormatter.format` are
abstract function parameters; the nullable merchant from the auth context
is an `Option Merchant`.
-/

/-- The two discount types of `NewOfferFormData.discount_type`
(`'percent' | 'coupon'`). -/
inductive DiscountType where
  | percent
  | coupon
deriving DecidableEq, Repr

/-- Embeds the `NewOfferFormData` interface of `NewOfferForm.tsx`. -/
structure NewOfferFormData where
  discount_type : DiscountType
  discount_value : Int
  min_followers : Int
  start_at : String
  end_at : String
deriving DecidableEq, Repr

/-- Embeds the `FollowerTier` interface of `NewOfferForm.tsx`. -/
structure FollowerTier where
  label : String
  value : Int
deriving DecidableEq, Repr

/-- Embeds the `ScalingOffer` interface of `NewOfferForm.tsx`. -/
structure ScalingOffer where
  min_followers : Int
  discount_value : Int
  title : String
  selected : Bool
deriving DecidableEq, Repr

/-- The merchant record from the auth context; only its display name is
used by the scaling computation. -/
structure Merchant where
  name : String
deriving DecidableEq, Repr

/-- Embeds the `FOLLOWER_TIERS` constant of `NewOfferForm.tsx`. -/
def FOLLOWER_TIERS : List FollowerTier :=
  [⟨"500+", 500⟩, ⟨"1,000+", 1000⟩, ⟨"2,000+", 2000⟩, ⟨"5,000+", 5000⟩,
   ⟨"10,000+", 10000⟩, ⟨"20,000+", 20000⟩, ⟨"50,000+", 50000⟩,
   ⟨"100,000+", 100000⟩]

/-- Embeds `SCALING_RULES.percent` of `NewOfferForm.tsx`. -/
structure PercentScalingRule where
  stepIncrease : Int
deriving DecidableEq, Repr

/-- Embeds `SCALING_RULES.coupon` of `NewOfferForm.tsx`. -/
structure CouponScalingRule where
  stepIncrease : Int
  maxDiscount : Int
deriving DecidableEq, Repr

/-- The `percent` entry of the `SCALING_RULES` constant. -/
def SCALING_RULES_percent : PercentScalingRule := ⟨10⟩

/-- The `coupon` entry of the `SCALING_RULES` constant. -/
def SCALING_RULES_coupon : CouponScalingRule := ⟨5, 150⟩

/-- Embeds `generateTitle` of `NewOfferForm.tsx` (lines 75-85).
`fmt` stands for `currencyFormatter.format`. -/
def generateTitle (fmt : Int → String) (discountType : DiscountType)
    (discountValue : Int) (businessName : String) : String :=
  match discountType with
  | DiscountType.percent => "-" ++ toString discountValue ++ "% at " ++ businessName
  | DiscountType.coupon =>
      if discountValue ≥ 150 then
        "Free at " ++ businessName
      else
        "-" ++ fmt discountValue ++ " at " ++ businessName

/-- The body of the `for` loop of `generateScalingOffers` (lines 132-158 of
`NewOfferForm.tsx`), at loop index `i = currentTierIndex + 1 + j`. -/
def scalingEntry (fmt : Int → String) (baseOffer : NewOfferFormData)
    (merchantName : String) (currentTierIndex : Nat) (j : Nat) : ScalingOffer :=
  let i := currentTierIndex + 1 + j
  let tier := FOLLOWER_TIERS.getD i ⟨"", 0⟩
  let tierSteps : Int := (i : Int) - (currentTierIndex : Int)
  let newDiscountValue :=
    match baseOffer.discount_type with
    | DiscountType.coupon =>
        let v := baseOffer.discount_value + tierSteps * baseOffer.discount_value
        if v > SCALING_RULES_coupon.maxDiscount then SCALING_RULES_coupon.maxDiscount else v
    | DiscountType.percent =>
        baseOffer.discount_value + tierSteps * SCALING_RULES_percent.stepIncrease
  { min_followers := tier.value
    discount_value := newDiscountValue
    title := generateTitle fmt baseOffer.discount_type newDiscountValue merchantName
    selected := true }

/-- Embeds `generateScalingOffers` of `NewOfferForm.tsx` (lines 121-161),
the spec's `computeScalingLadder`. The merchant comes from the auth context
and may be null; `JS findIndex` returning `-1` is the `none` case of
`List.findIdx?`. -/
def generateScalingOffers (merchant : Option Merchant) (fmt : Int → String)
    (baseOffer : NewOfferFormData) : List ScalingOffer :=
  match merchant with
  | none => []
  | some m =>
    match List.findIdx? (fun tier => tier.value == baseOffer.min_followers) FOLLOWER_TIERS with
    | none => []
    | some currentTierIndex =>
      if currentTierIndex = FOLLOWER_TIERS.length - 1 then []
      else
        (List.range (FOLLOWER_TIERS.length - (currentTierIndex + 1))).map
          (scalingEntry fmt baseOffer m.name currentTierIndex)

/-- Boolean lexicographic string comparison, embedding the JavaScript `<`
relational operator on strings (the source's `data.start_at > data.end_at`
is `jsStringLt data.end_at data.start_at`). -/
def jsStringLt (a b : String) : Bool :=
  go a.data b.data
where
  go : List Char → List Char → Bool
  | [], [] => false
  | [], _ :: _ => true
  | _ :: _, [] => false
  | c :: cs, d :: ds => if c < d then true else if d < c then false else go cs ds

/-- Embeds the error mapping `Partial Record of keys of NewOfferFormData to
string` produced by `validateForm`: one optional message per form field,
`none` meaning the key is absent from the mapping. -/
structure NewOfferErrors where
  discount_type : Option String := none
  discount_value : Option String := none
  min_followers : Option String := none
  start_at : Option String := none
  end_at : Option String := none
deriving DecidableEq, Repr

/-- Embeds `validateForm` of `NewOfferForm.tsx` (lines 99-119). `t` is the
abstract translation function; a JS falsy date string is the empty string. -/
def validateForm (t : String → String) (data : NewOfferFormData) : NewOfferErrors :=
  let newErrors : NewOfferErrors := {}
  let newErrors :=
    if data.discount_type = DiscountType.percent then
      if data.discount_value < 5 ∨ data.discount_value > 100 ∨ data.discount_value % 5 ≠ 0 then
        { newErrors with discount_value := some (t "offers.newFormValidationDiscount") }
      else newErrors
    else
      if data.discount_value < 1 then
        { newErrors with discount_value := some (t "offers.newFormValidationFixed") }
      else newErrors
  let newErrors :=
    if data.start_at = "" then
      { newErrors with start_at := some (t "offers.newFormValidationStartDate") }
    else newErrors
  let newErrors :=
    if data.start_at ≠ "" ∧ data.end_at ≠ "" ∧ jsStringLt data.end_at data.start_at = true then
      { newErrors with end_at := some (t "offers.newFormValidationEndDate") }
    else newErrors
  newErrors

/-- Embeds the `OfferFormData` interface of `src/unnamed/part_007`. -/
structure OfferFormData where
  title : String
  description : String
  discount_type : DiscountType
  discount_value : Int
  min_followers : Int
  start_at : String
  end_at : String
  is_active : Bool
deriving DecidableEq, Repr

/-- Embeds the `OfferFieldErrors` interface of `src/unnamed/part_007`. -/
structure OfferFieldErrors where
  title : Option String := none
  discount_value : Option String := none
  start_at : Option String := none
  end_at : Option String := none
deriving DecidableEq, Repr

/-- Embeds `computeErrors` of `src/unnamed/part_007` (lines 511-531), the
edit-form validator. -/
def computeErrors (t : String → String) (data : OfferFormData) : OfferFieldErrors :=
  let nextErrors : OfferFieldErrors := {}
  let nextErrors :=
    if data.title.trim = "" then
      { nextErrors with title := some (t "offers.validationTitle") }
    else nextErrors
  let nextErrors :=
    if data.discount_type = DiscountType.percent then
      if data.discount_value < 5 ∨ data.discount_value > 100 ∨ data.discount_value % 5 ≠ 0 then
        { nextErrors with discount_value := some (t "offers.validationPercentage") }
      else nextErrors
    else
      if data.discount_value < 1 then
        { nextErrors with discount_value := some (t "offers.validationFixed") }
      else nextErrors
  let nextErrors :=
    if data.start_at ≠ "" ∧ data.end_at ≠ "" ∧ jsStringLt data.end_at data.start_at = true then
      { nextErrors with end_at := some (t "offers.validationDates") }
    else nextErrors
  nextErrors

lemma tiers_findIdx_of_eq (k : Nat) (hk : k < 8) (v : Int)
    (hv : v = (FOLLOWER_TIERS.getD k ⟨"", 0⟩).value) :
    List.findIdx? (fun tier => tier.value == v) FOLLOWER_TIERS = some k := by
  subst hv
  interval_cases k <;> decide

lemma generateScalingOffers_eq (m : Merchant) (fmt : Int → String)
    (b : NewOfferFormData) (k : Nat) (hk : k < 7)
    (hfind : List.findIdx? (fun tier => tier.value == b.min_followers) FOLLOWER_TIERS = some k) :
    generateScalingOffers (some m) fmt b =
      (List.range (7 - k)).map (scalingEntry fmt b m.name k) := by
  unfold generateScalingOffers
  rw [hfind]
  show (if k = FOLLOWER_TIERS.length - 1 then []
        else (List.range (FOLLOWER_TIERS.length - (k + 1))).map
          (scalingEntry fmt b m.name k)) = _
  have hlen : FOLLOWER_TIERS.length = 8 := rfl
  rw [hlen]
  rw [if_neg (by omega)]
  have h87 : 8 - (k + 1) = 7 - k := by omega
  rw [h87]

lemma scalingEntry_min_followers (fmt : Int → String) (b : NewOfferFormData)
    (name : String) (k j : Nat) :
    (scalingEntry fmt b name k j).min_followers =
      (FOLLOWER_TIERS.getD (k + 1 + j) ⟨"", 0⟩).value := rfl

lemma scalingEntry_selected (fmt : Int → String) (b : NewOfferFormData)
    (name : String) (k j : Nat) :
    (scalingEntry fmt b name k j).selected = true := rfl

lemma scalingEntry_discount_coupon (fmt : Int → String) (b : NewOfferFormData)
    (name : String) (k j : Nat) (h : b.discount_type = DiscountType.coupon) :
    (scalingEntry fmt b name k j).discount_value =
      min (b.discount_value + ((j : Int) + 1) * b.discount_value) 150 := by
  unfold scalingEntry
  rw [h]
  have hcast : ((k + 1 + j : Nat) : Int) - (k : Nat) = (j : Int) + 1 := by
    push_cast
    ring
  simp only [hcast, SCALING_RULES_coupon]
  rcases le_or_lt (b.discount_value + ((j : Int) + 1) * b.discount_value) 150 with hle | hgt
  · rw [if_neg (by omega), min_eq_left hle]
  · rw [if_pos (by omega), min_eq_right (le_of_lt hgt)]

lemma scalingEntry_discount_percent (fmt : Int → String) (b : NewOfferFormData)
    (name : String) (k j : Nat) (h : b.discount_type = DiscountType.percent) :
    (scalingEntry fmt b name k j).discount_value =
      b.discount_value + ((j : Int) + 1) * 10 := by
  unfold scalingEntry
  rw [h]
  have hcast : ((k + 1 + j : Nat) : Int) - (k : Nat) = (j : Int) + 1 := by
    push_cast
    ring
  simp only [hcast, SCALING_RULES_percent]

lemma ladder_get_eq (m : Merchant) (fmt : Int → String) (b : NewOfferFormData)
    (k : Nat) (hk : k < 7)
    (hfind : List.findIdx? (fun tier => tier.value == b.min_followers) FOLLOWER_TIERS = some k)
    (j : Nat) (hj : j < (generateScalingOffers (some m) fmt b).length) :
    (generateScalingOffers (some m) fmt b).get ⟨j, hj⟩ = scalingEntry fmt b m.name k j := by
  have hL := generateScalingOffers_eq m fmt b k hk hfind
  revert hj
  rw [hL]
  intro hj
  simp

lemma ladder_length_eq (m : Merchant) (fmt : Int → String) (b : NewOfferFormData)
    (k : Nat) (hk : k < 7)
    (hfind : List.findIdx? (fun tier => tier.value == b.min_followers) FOLLOWER_TIERS = some k) :
    (generateScalingOffers (some m) fmt b).length = 7 - k := by
  rw [generateScalingOffers_eq m fmt b k hk hfind]
  simp

lemma jsStringLt_go_iff (as bs : List Char) :
    jsStringLt.go as bs = true ↔ List.Lex (· < ·) as bs := by
  induction as generalizing bs with
  | nil =>
    cases bs with
    | nil =>
      refine iff_of_false (by simp [jsStringLt.go]) ?_
      intro h
      cases h
    | cons d ds =>
      exact iff_of_true rfl List.Lex.nil
  | cons c cs ih =>
    cases bs with
    | nil =>
      refine iff_of_false (by simp [jsStringLt.go]) ?_
      intro h
      cases h
    | cons d ds =>
      by_cases hcd : c < d
      · refine iff_of_true ?_ (List.Lex.rel hcd)
        simp [jsStringLt.go, hcd]
      · by_cases hdc : d < c
        · refine iff_of_false ?_ ?_
          · simp [jsStringLt.go, hcd, hdc]
          · intro h
            cases h with
            | cons h3 => exact absurd hdc (lt_irrefl _)
            | rel h' => exact hcd h'
        · have hce : c = d := le_antisymm (not_lt.mp hdc) (not_lt.mp hcd)
          subst hce
          have hgo : jsStringLt.go (c :: cs) (c :: ds) = jsStringLt.go cs ds := by
            simp [jsStringLt.go, hcd]
          rw [hgo, ih ds]
          constructor
          · intro h
            exact List.Lex.cons h
          · intro h
            cases h with
            | cons h3 => exact h3
            | rel h' => exact absurd h' (lt_irrefl _)

lemma jsStringLt_iff_lex (a b : String) :
    jsStringLt a b = true ↔ List.Lex (· < ·) a.data b.data :=
  jsStringLt_go_iff a.data b.data

lemma validateForm_discount_type (t : String → String) (d : NewOfferFormData) :
    (validateForm t d).discount_type = none := by
  simp only [validateForm]
  split_ifs <;> rfl

lemma validateForm_min_followers (t : String → String) (d : NewOfferFormData) :
    (validateForm t d).min_followers = none := by
  simp only [validateForm]
  split_ifs <;> rfl

lemma validateForm_discount_value (t : String → String) (d : NewOfferFormData) :
    (validateForm t d).discount_value =
      if d.discount_type = DiscountType.percent then
        if d.discount_value < 5 ∨ d.discount_value > 100 ∨ d.discount_value % 5 ≠ 0 then
          some (t "offers.newFormValidationDiscount")
        else none
      else
        if d.discount_value < 1 then some (t "offers.newFormValidationFixed")
        else none := by
  simp only [validateForm]
  split_ifs <;> rfl

lemma validateForm_start_at (t : String → String) (d : NewOfferFormData) :
    (validateForm t d).start_at =
      if d.start_at = "" then some (t "offers.newFormValidationStartDate") else none := by
  simp only [validateForm]
  split_ifs <;> rfl

lemma validateForm_end_at (t : String → String) (d : NewOfferFormData) :
    (validateForm t d).end_at =
      if d.start_at ≠ "" ∧ d.end_at ≠ "" ∧ jsStringLt d.end_at d.start_at = true then
        some (t "offers.newFormValidationEndDate")
      else none := by
  simp only [validateForm]
  split_ifs <;> rfl

lemma computeErrors_start_at (t : String → String) (d : OfferFormData) :
    (computeErrors t d).start_at = none := by
  simp only [computeErrors]
  split_ifs <;> rfl

lemma computeErrors_discount_value (t : String → String) (d : OfferFormData) :
    (computeErrors t d).discount_value =
      if d.discount_type = DiscountType.percent then
        if d.discount_value < 5 ∨ d.discount_value > 100 ∨ d.discount_value % 5 ≠ 0 then
          some (t "offers.validationPercentage")
        else none
      else
        if d.discount_value < 1 then some (t "offers.validationFixed")
        else none := by
  simp only [computeErrors]
  split_ifs <;> rfl

lemma computeErrors_end_at (t : String → String) (d : OfferFormData) :
    (computeErrors t d).end_at =
      if d.start_at ≠ "" ∧ d.end_at ≠ "" ∧ jsStringLt d.end_at d.start_at = true then
        some (t "offers.validationDates")
      else none := by
  simp only [computeErrors]
  split_ifs <;> rfl

lemma coupon_min_mono (base : Int) (j j' : Nat) (hjj : j ≤ j')
    (h : min (base + ((j : Int) + 1) * base) 150 = 150) :
    min (base + ((j' : Int) + 1) * base) 150 = 150 := by
  have h1 : (150 : Int) ≤ base + ((j : Int) + 1) * base := h ▸ min_le_left _ _
  have hj0 : (0 : Int) ≤ (j : Int) := Int.natCast_nonneg j
  have hjj' : (j : Int) ≤ (j' : Int) := by exact_mod_cast hjj
  have hfac : base * ((j : Int) + 2) = base + ((j : Int) + 1) * base := by ring
  have hfac' : base * ((j' : Int) + 2) = base + ((j' : Int) + 1) * base := by ring
  have hbpos : 0 < base := by nlinarith
  have h2 : (150 : Int) ≤ base + ((j' : Int) + 1) * base := by
    rw [← hfac']
    calc (150 : Int) ≤ base * ((j : Int) + 2) := by rw [hfac]; exact h1
      _ ≤ base * ((j' : Int) + 2) :=
        mul_le_mul_of_nonneg_left (by omega) (le_of_lt hbpos)
  exact min_eq_right h2

lemma ladder_getD_eq (m : Merchant) (fmt : Int → String) (b : NewOfferFormData)
    (k : Nat) (hk : k < 7)
    (hfind : List.findIdx? (fun tier => tier.value == b.min_followers) FOLLOWER_TIERS = some k)
    (j : Nat) (hj : j < (generateScalingOffers (some m) fmt b).length) :
    (generateScalingOffers (some m) fmt b).getD j ⟨0, 0, "", false⟩ =
      scalingEntry fmt b m.name k j := by
  have hL := generateScalingOffers_eq m fmt b k hk hfind
  rw [hL] at hj ⊢
  rw [List.getD_eq_getElem _ _ hj]
  simp

/-- Claim C1: for every base offer with `discount_type = coupon` whose
`min_followers` equals a non-top tier threshold (the `k`-th of the eight
tiers, `k < 7`), every entry of the ladder returned by
`generateScalingOffers` has `discount_value` equal to
`baseDiscountValue + tierSteps * baseDiscountValue` clamped at 150 (for the
`j`-th ladder entry the 1-based tier distance `tierSteps` is `j + 1`), so it
never exceeds 150; and once an entry reaches 150, every later (higher-tier)
entry also equals 150. -/
theorem claim_c1_coupon_ladder (m : Merchant) (fmt : Int → String)
    (b : NewOfferFormData) (hdt : b.discount_type = DiscountType.coupon)
    (k : Nat) (hk : k < 7)
    (hmf : b.min_followers = (FOLLOWER_TIERS.getD k ⟨"", 0⟩).value) :
    (∀ j : Nat, j < (generateScalingOffers (some m) fmt b).length →
      ((generateScalingOffers (some m) fmt b).getD j ⟨0, 0, "", false⟩).discount_value =
        min (b.discount_value + ((j : Int) + 1) * b.discount_value) 150 ∧
      ((generateScalingOffers (some m) fmt b).getD j ⟨0, 0, "", false⟩).discount_value ≤ 150) ∧
    (∀ j j' : Nat, j ≤ j' → j' < (generateScalingOffers (some m) fmt b).length →
      ((generateScalingOffers (some m) fmt b).getD j ⟨0, 0, "", false⟩).discount_value = 150 →
      ((generateScalingOffers (some m) fmt b).getD j' ⟨0, 0, "", false⟩).discount_value = 150) := by
  have hfind := tiers_findIdx_of_eq k (by omega) b.min_followers hmf
  constructor
  · intro j hj
    rw [ladder_getD_eq m fmt b k hk hfind j hj]
    rw [scalingEntry_discount_coupon fmt b m.name k j hdt]
    exact ⟨rfl, min_le_right _ _⟩
  · intro j j' hle hj' h150
    have hj : j < (generateScalingOffers (some m) fmt b).length := lt_of_le_of_lt hle hj'
    rw [ladder_getD_eq m fmt b k hk hfind j hj,
      scalingEntry_discount_coupon fmt b m.name k j hdt] at h150
    rw [ladder_getD_eq m fmt b k hk hfind j' hj',
      scalingEntry_discount_coupon fmt b m.name k j' hdt]
    exact coupon_min_mono b.discount_value j j' hle h150

/-- Witness for C1: the coupon base offer with value 40 at the 1,000-follower
tier; its third ladder entry (tier 10,000, tierSteps 3) is clamped to 150. -/
theorem claim_c1_coupon_ladder_witness :
    ((generateScalingOffers (some ⟨"M"⟩) (fun _ => "")
        { discount_type := DiscountType.coupon, discount_value := 40,
          min_followers := 1000, start_at := "", end_at := "" }).getD 2
      ⟨0, 0, "", false⟩).discount_value =
      min (40 + ((2 : Int) + 1) * 40) 150 ∧
    ((generateScalingOffers (some ⟨"M"⟩) (fun _ => "")
        { discount_type := DiscountType.coupon, discount_value := 40,
          min_followers := 1000, start_at := "", end_at := "" }).getD 2
      ⟨0, 0, "", false⟩).discount_value ≤ 150 :=
  (claim_c1_coupon_ladder ⟨"M"⟩ (fun _ => "")
      { discount_type := DiscountType.coupon, discount_value := 40,
        min_followers := 1000, start_at := "", end_at := "" }
      rfl 1 (by omega) (by decide)).1 2 (by decide)

/-- Claim C2: for every base offer with `discount_type = percent` whose
`min_followers` equals a non-top tier threshold, every ladder entry has
`discount_value = baseDiscountValue + tierSteps * 10` (tierSteps being
`j + 1` for the `j`-th entry); in particular the base offer
`{percent, 10, 1000}` yields values [20,30,40,50,60,70] for tiers
[2000,5000,10000,20000,50000,100000] in that order. -/
theorem claim_c2_percent_ladder (m : Merchant) (fmt : Int → String)
    (b : NewOfferFormData) (hdt : b.discount_type = DiscountType.percent)
    (k : Nat) (hk : k < 7)
    (hmf : b.min_followers = (FOLLOWER_TIERS.getD k ⟨"", 0⟩).value) :
    (∀ j : Nat, j < (generateScalingOffers (some m) fmt b).length →
      ((generateScalingOffers (some m) fmt b).getD j ⟨0, 0, "", false⟩).discount_value =
        b.discount_value + ((j : Int) + 1) * 10) ∧
    (generateScalingOffers (some m) fmt
        { discount_type := DiscountType.percent, discount_value := 10,
          min_followers := 1000, start_at := "", end_at := "" }).map
      (fun o => (o.min_followers, o.discount_value)) =
      [(2000, 20), (5000, 30), (10000, 40), (20000, 50), (50000, 60), (100000, 70)] := by
  have hfind := tiers_findIdx_of_eq k (by omega) b.min_followers hmf
  constructor
  · intro j hj
    rw [ladder_getD_eq m fmt b k hk hfind j hj]
    exact scalingEntry_discount_percent fmt b m.name k j hdt
  · rfl

/-- Witness for C2: the base offer {percent, 10, 1000} has its first ladder
entry at discount value 20, and the full concrete ladder matches. -/
theorem claim_c2_percent_ladder_witness :
    ((generateScalingOffers (some ⟨"M"⟩) (fun _ => "")
        { discount_type := DiscountType.percent, discount_value := 10,
          min_followers := 1000, start_at := "", end_at := "" }).getD 0
      ⟨0, 0, "", false⟩).discount_value = 10 + ((0 : Int) + 1) * 10 :=
  (claim_c2_percent_ladder ⟨"M"⟩ (fun _ => "")
      { discount_type := DiscountType.percent, discount_value := 10,
        min_followers := 1000, start_at := "", end_at := "" }
      rfl 1 (by omega) (by decide)).1 0 (by decide)

/-- Counterexample to C3 as stated: the validated percent base offer with
value 100 at the 50,000-follower tier produces the one-entry ladder [110],
which exceeds 100 — the percent scaling rule is not capped at 100. -/
theorem claim_c3_counterexample :
    (generateScalingOffers (some ⟨"M"⟩) (fun _ => "")
        { discount_type := DiscountType.percent, discount_value := 100,
          min_followers := 50000, start_at := "", end_at := "" }).map
      (fun o => o.discount_value) = [110] ∧
    ¬ ((110 : Int) ≤ 100) := by
  constructor
  · rfl
  · decide

/-- Claim C3 amended: the code applies no cap to the percent rule; for every
validated percent base offer (value in [5,100], a multiple of 5) at a
non-top tier, every ladder entry equals `base + tierSteps * 10` and is
therefore at most 170 (base at most 100 plus at most 7 steps of 10) — but
not necessarily at most 100. -/
theorem claim_c3_percent_uncapped (m : Merchant) (fmt : Int → String)
    (b : NewOfferFormData) (hdt : b.discount_type = DiscountType.percent)
    (h5 : 5 ≤ b.discount_value) (h100 : b.discount_value ≤ 100)
    (hmod : b.discount_value % 5 = 0)
    (k : Nat) (hk : k < 7)
    (hmf : b.min_followers = (FOLLOWER_TIERS.getD k ⟨"", 0⟩).value) :
    ∀ j : Nat, j < (generateScalingOffers (some m) fmt b).length →
      ((generateScalingOffers (some m) fmt b).getD j ⟨0, 0, "", false⟩).discount_value =
        b.discount_value + ((j : Int) + 1) * 10 ∧
      ((generateScalingOffers (some m) fmt b).getD j ⟨0, 0, "", false⟩).discount_value ≤ 170 := by
  have hfind := tiers_findIdx_of_eq k (by omega) b.min_followers hmf
  intro j hj
  have hlen := ladder_length_eq m fmt b k hk hfind
  have hj7 : j < 7 - k := by omega
  rw [ladder_getD_eq m fmt b k hk hfind j hj]
  rw [scalingEntry_discount_percent fmt b m.name k j hdt]
  refine ⟨rfl, ?_⟩
  have hjc : ((j : Int) + 1) ≤ 7 := by omega
  omega

/-- Witness for the amended C3: the percent base offer with value 100 at the
50,000-follower tier has its single ladder entry equal to 110 ≤ 170. -/
theorem claim_c3_percent_uncapped_witness :
    ((generateScalingOffers (some ⟨"M"⟩) (fun _ => "")
        { discount_type := DiscountType.percent, discount_value := 100,
          min_followers := 50000, start_at := "", end_at := "" }).getD 0
      ⟨0, 0, "", false⟩).discount_value = 100 + ((0 : Int) + 1) * 10 ∧
    ((generateScalingOffers (some ⟨"M"⟩) (fun _ => "")
        { discount_type := DiscountType.percent, discount_value := 100,
          min_followers := 50000, start_at := "", end_at := "" }).getD 0
      ⟨0, 0, "", false⟩).discount_value ≤ 170 :=
  claim_c3_percent_uncapped ⟨"M"⟩ (fun _ => "")
    { discount_type := DiscountType.percent, discount_value := 100,
      min_followers := 50000, start_at := "", end_at := "" }
    rfl (by decide) (by decide) (by decide) 6 (by omega) (by decide) 0 (by decide)

lemma ladder_map_min_followers (m : Merchant) (fmt : Int → String)
    (b : NewOfferFormData) (k : Nat) (hk : k < 7)
    (hfind : List.findIdx? (fun tier => tier.value == b.min_followers) FOLLOWER_TIERS = some k) :
    (generateScalingOffers (some m) fmt b).map (fun o => o.min_followers) =
      (List.range (7 - k)).map (fun j => (FOLLOWER_TIERS.getD (k + 1 + j) ⟨"", 0⟩).value) := by
  rw [generateScalingOffers_eq m fmt b k hk hfind, List.map_map]
  rfl

/-- Claim C4: with a merchant present, if `min_followers` is not one of the
fixed tier thresholds, or equals the highest threshold (100000), the ladder
is empty; otherwise (base tier `k < 7`) the ladder has exactly one entry per
tier strictly above the base tier, in ascending tier order, each carrying
that tier's threshold as `min_followers` and `selected = true`. -/
theorem claim_c4_ladder_structure (m : Merchant) (fmt : Int → String)
    (b : NewOfferFormData) :
    ((∀ tier ∈ FOLLOWER_TIERS, tier.value ≠ b.min_followers) →
      generateScalingOffers (some m) fmt b = []) ∧
    (b.min_followers = 100000 → generateScalingOffers (some m) fmt b = []) ∧
    (∀ k : Nat, k < 7 → b.min_followers = (FOLLOWER_TIERS.getD k ⟨"", 0⟩).value →
      (generateScalingOffers (some m) fmt b).map (fun o => o.min_followers) =
        (FOLLOWER_TIERS.drop (k + 1)).map (fun tier => tier.value) ∧
      List.Chain' (· < ·)
        ((generateScalingOffers (some m) fmt b).map (fun o => o.min_followers)) ∧
      ∀ o ∈ generateScalingOffers (some m) fmt b, o.selected = true) := by
  refine ⟨?_, ?_, ?_⟩
  · intro h
    have hnone : List.findIdx? (fun tier => tier.value == b.min_followers) FOLLOWER_TIERS
        = none := by
      rw [List.findIdx?_eq_none_iff]
      intro tier htier
      exact beq_eq_false_iff_ne.mpr (h tier htier)
    unfold generateScalingOffers
    rw [hnone]
  · intro h100
    obtain ⟨dt, dv, mf, sa, ea⟩ := b
    simp only at h100
    subst h100
    rfl
  · intro k hk hmf
    have hfind := tiers_findIdx_of_eq k (by omega) b.min_followers hmf
    have hmap := ladder_map_min_followers m fmt b k hk hfind
    refine ⟨?_, ?_, ?_⟩
    · rw [hmap]
      interval_cases k <;> decide
    · rw [hmap]
      interval_cases k <;> norm_num [List.range_succ, FOLLOWER_TIERS, List.chain'_cons]
    · intro o ho
      rw [generateScalingOffers_eq m fmt b k hk hfind] at ho
      rw [List.mem_map] at ho
      obtain ⟨j, _, rfl⟩ := ho
      exact scalingEntry_selected fmt b m.name k j

/-- Witness for C4: the base offer at the 1,000-follower tier (index 1) has
ladder tiers [2000, 5000, 10000, 20000, 50000, 100000], strictly ascending,
all selected. -/
theorem claim_c4_ladder_structure_witness :
    (generateScalingOffers (some ⟨"M"⟩) (fun _ => "")
        { discount_type := DiscountType.percent, discount_value := 10,
          min_followers := 1000, start_at := "", end_at := "" }).map
      (fun o => o.min_followers) =
      (FOLLOWER_TIERS.drop 2).map (fun tier => tier.value) ∧
    List.Chain' (· < ·)
      ((generateScalingOffers (some ⟨"M"⟩) (fun _ => "")
          { discount_type := DiscountType.percent, discount_value := 10,
            min_followers := 1000, start_at := "", end_at := "" }).map
        (fun o => o.min_followers)) ∧
    ∀ o ∈ generateScalingOffers (some ⟨"M"⟩) (fun _ => "")
        { discount_type := DiscountType.percent, discount_value := 10,
          min_followers := 1000, start_at := "", end_at := "" }, o.selected = true :=
  (claim_c4_ladder_structure ⟨"M"⟩ (fun _ => "")
      { discount_type := DiscountType.percent, discount_value := 10,
        min_followers := 1000, start_at := "", end_at := "" }).2.2 1 (by omega) (by decide)

/-- Claim C5: `validateForm` reports an error on `discount_value` exactly
when the type is percent and the value is not in [5,100] and a multiple
of 5, or the type is coupon and the value is below 1; in particular percent
value 7 and coupon value 0 produce the error, and every percent multiple of
5 within [5,100] produces none. -/
theorem claim_c5_discount_validation (t : String → String) (d : NewOfferFormData) :
    ((validateForm t d).discount_value ≠ none ↔
      (d.discount_type = DiscountType.percent ∧
        ¬ (5 ≤ d.discount_value ∧ d.discount_value ≤ 100 ∧ (5 : Int) ∣ d.discount_value)) ∨
      (d.discount_type = DiscountType.coupon ∧ d.discount_value < 1)) ∧
    (validateForm t
        { discount_type := DiscountType.percent, discount_value := 7,
          min_followers := 1000, start_at := "2024-01-01", end_at := "" }).discount_value ≠
      none ∧
    (validateForm t
        { discount_type := DiscountType.coupon, discount_value := 0,
          min_followers := 1000, start_at := "2024-01-01", end_at := "" }).discount_value ≠
      none ∧
    (∀ v : Int, 5 ≤ v → v ≤ 100 → (5 : Int) ∣ v →
      (validateForm t
          { discount_type := DiscountType.percent, discount_value := v,
            min_followers := 1000, start_at := "2024-01-01", end_at := "" }).discount_value =
        none) := by
  refine ⟨?_, ?_, ?_, ?_⟩
  · rw [validateForm_discount_value]
    cases hdt : d.discount_type
    case percent =>
      rw [if_pos rfl]
      split_ifs with hc
      · exact iff_of_true (by simp) (Or.inl ⟨rfl, by omega⟩)
      · refine iff_of_false (by simp) ?_
        rintro (⟨-, hno⟩ | ⟨hcontra, -⟩)
        · exact hno ⟨by omega, by omega, by omega⟩
        · exact hcontra.elim
    case coupon =>
      rw [if_neg (by simp)]
      split_ifs with hc
      · exact iff_of_true (by simp) (Or.inr ⟨rfl, hc⟩)
      · refine iff_of_false (by simp) ?_
        rintro (⟨hcontra, -⟩ | ⟨-, hlt⟩)
        · exact hcontra.elim
        · exact hc hlt
  · simp [validateForm_discount_value]
  · simp [validateForm_discount_value]
  · intro v h5 h100 hdvd
    rw [validateForm_discount_value]
    simp [show ¬(v < 5 ∨ v > 100 ∨ v % 5 ≠ 0) from by omega]
    exact ⟨h5, h100, hdvd⟩

/-- Claim C6: when both dates are non-empty, `validateForm` reports an error
on `end_at` exactly when `start_at > end_at` under lexicographic comparison
(embedded by `jsStringLt`, shown equivalent to `List.Lex (· < ·)` on the
character data); when either date is absent (empty), no date-ordering error
is reported. -/
theorem claim_c6_date_validation (t : String → String) (d : NewOfferFormData) :
    (d.start_at ≠ "" → d.end_at ≠ "" →
      ((validateForm t d).end_at ≠ none ↔
        List.Lex (· < ·) d.end_at.data d.start_at.data)) ∧
    (d.start_at = "" ∨ d.end_at = "" → (validateForm t d).end_at = none) := by
  constructor
  · intro hs he
    rw [validateForm_end_at, ← jsStringLt_iff_lex]
    split_ifs with hc
    · exact iff_of_true (by simp) hc.2.2
    · refine iff_of_false (by simp) ?_
      intro hlt
      exact hc ⟨hs, he, hlt⟩
  · intro hor
    rw [validateForm_end_at, if_neg]
    rintro ⟨h1, h2, -⟩
    rcases hor with h | h
    · exact h1 h
    · exact h2 h

/-- Witness for C6: with start date 2024-02-01 and end date 2024-01-01 (both
non-empty), the end-date error is present exactly when the end date is
lexicographically below the start date. -/
theorem claim_c6_date_validation_witness :
    (validateForm (fun s => s)
        { discount_type := DiscountType.percent, discount_value := 10,
          min_followers := 1000, start_at := "2024-02-01",
          end_at := "2024-01-01" }).end_at ≠ none ↔
      List.Lex (· < ·) "2024-01-01".data "2024-02-01".data :=
  (claim_c6_date_validation (fun s => s)
      { discount_type := DiscountType.percent, discount_value := 10,
        min_followers := 1000, start_at := "2024-02-01",
        end_at := "2024-01-01" }).1 (by decide) (by decide)

/-- Claim C7: the generated title is "-{value}% at {name}" for percent,
"Free at {name}" for coupon at or above the 150 cap, and
"-{formattedCurrency} at {name}" for coupon below 150 (with `fmt` the
currency formatter); for instance percent 20 at "Cafe" gives
"-20% at Cafe". -/
theorem claim_c7_title (fmt : Int → String) (v : Int) (name : String) :
    generateTitle fmt DiscountType.percent v name =
      "-" ++ toString v ++ "% at " ++ name ∧
    (150 ≤ v → generateTitle fmt DiscountType.coupon v name = "Free at " ++ name) ∧
    (v < 150 → generateTitle fmt DiscountType.coupon v name =
      "-" ++ fmt v ++ " at " ++ name) ∧
    generateTitle fmt DiscountType.percent 20 "Cafe" = "-20% at Cafe" := by
  refine ⟨rfl, ?_, ?_, rfl⟩
  · intro h
    unfold generateTitle
    rw [if_pos h]
  · intro h
    unfold generateTitle
    rw [if_neg (by omega)]

/-- Witness for C7: a coupon at exactly 150 renders as free, and a coupon at
10 renders with the formatted currency amount. -/
theorem claim_c7_title_witness :
    generateTitle (fun _ => "EUR10") DiscountType.coupon 150 "M" = "Free at " ++ "M" ∧
    generateTitle (fun _ => "EUR10") DiscountType.coupon 10 "M" =
      "-" ++ (fun _ : Int => "EUR10") 10 ++ " at " ++ "M" :=
  ⟨(claim_c7_title (fun _ => "EUR10") 150 "M").2.1 (by omega),
   (claim_c7_title (fun _ => "EUR10") 10 "M").2.2.1 (by omega)⟩

/-- Claim C8: the two form variants differ on the start-date rule as
configured: the new-offer validator reports an error on `start_at` exactly
when it is empty, the edit-form validator never reports an error on
`start_at`, and on the shared fields (`discount_value`, `end_at`) the two
validators agree whenever the corresponding inputs agree. -/
theorem claim_c8_form_variants (t : String → String) (d : NewOfferFormData)
    (d' : OfferFormData)
    (hdt : d'.discount_type = d.discount_type)
    (hdv : d'.discount_value = d.discount_value)
    (hs : d'.start_at = d.start_at) (he : d'.end_at = d.end_at) :
    ((validateForm t d).start_at ≠ none ↔ d.start_at = "") ∧
    (computeErrors t d').start_at = none ∧
    ((validateForm t d).discount_value = none ↔
      (computeErrors t d').discount_value = none) ∧
    ((validateForm t d).end_at = none ↔ (computeErrors t d').end_at = none) := by
  refine ⟨?_, computeErrors_start_at t d', ?_, ?_⟩
  · rw [validateForm_start_at]
    split_ifs with hc
    · exact iff_of_true (by simp) hc
    · exact iff_of_false (by simp) hc
  · rw [validateForm_discount_value, computeErrors_discount_value, hdt, hdv]
    split_ifs <;> simp
  · rw [validateForm_end_at, computeErrors_end_at, hs, he]
    split_ifs <;> simp

/-- Witness for C8: a new-offer form input with empty start date against the
matching edit-form input. -/
theorem claim_c8_form_variants_witness :
    ((validateForm (fun s => s)
        { discount_type := DiscountType.percent, discount_value := 10,
          min_followers := 1000, start_at := "", end_at := "" }).start_at ≠ none ↔
      ({ discount_type := DiscountType.percent, discount_value := 10,
         min_followers := 1000, start_at := "", end_at := "" } :
        NewOfferFormData).start_at = "") ∧
    (computeErrors (fun s => s)
        { title := "T", description := "", discount_type := DiscountType.percent,
          discount_value := 10, min_followers := 0, start_at := "", end_at := "",
          is_active := true }).start_at = none ∧
    ((validateForm (fun s => s)
        { discount_type := DiscountType.percent, discount_value := 10,
          min_followers := 1000, start_at := "", end_at := "" }).discount_value = none ↔
      (computeErrors (fun s => s)
        { title := "T", description := "", discount_type := DiscountType.percent,
          discount_value := 10, min_followers := 0, start_at := "", end_at := "",
          is_active := true }).discount_value = none) ∧
    ((validateForm (fun s => s)
        { discount_type := DiscountType.percent, discount_value := 10,
          min_followers := 1000, start_at := "", end_at := "" }).end_at = none ↔
      (computeErrors (fun s => s)
        { title := "T", description := "", discount_type := DiscountType.percent,
          discount_value := 10, min_followers := 0, start_at := "", end_at := "",
          is_active := true }).end_at = none) :=
  claim_c8_form_variants (fun s => s)
    { discount_type := DiscountType.percent, discount_value := 10,
      min_followers := 1000, start_at := "", end_at := "" }
    { title := "T", description := "", discount_type := DiscountType.percent,
      discount_value := 10, min_followers := 0, start_at := "", end_at := "",
      is_active := true }
    rfl rfl rfl rfl

/-- Claim C9: with no merchant record (null merchant context),
`generateScalingOffers` returns the empty ladder for every base offer, so a
non-empty ladder is produced only when a merchant exists. -/
theorem claim_c9_no_merchant (fmt : Int → String) (b : NewOfferFormData) :
    generateScalingOffers none fmt b = [] ∧
    (∀ mo : Option Merchant, generateScalingOffers mo fmt b ≠ [] →
      ∃ m : Merchant, mo = some m) := by
  refine ⟨rfl, ?_⟩
  intro mo h
  cases mo with
  | none => exact absurd rfl h
  | some m => exact ⟨m, rfl⟩

/-- Witness for C9: the non-empty ladder of a percent offer at the
1,000-follower tier forces the merchant option to be `some`. -/
theorem claim_c9_no_merchant_witness :
    ∃ m : Merchant, (some (Merchant.mk "M") : Option Merchant) = some m :=
  (claim_c9_no_merchant (fun _ => "")
      { discount_type := DiscountType.percent, discount_value := 10,
        min_followers := 1000, start_at := "", end_at := "" }).2
    (some ⟨"M"⟩) (by decide)

/-- Claim C10: `validateForm` never reports an error on `discount_type` or
`min_followers` (its error keys lie in the discount-value, start-date and
end-date fields), and a `min_followers` value matching no tier threshold
still passes validation when the other fields are valid. -/
theorem claim_c10_error_keys (t : String → String) (d : NewOfferFormData) :
    (validateForm t d).discount_type = none ∧
    (validateForm t d).min_followers = none ∧
    (∀ mf : Int, (∀ tier ∈ FOLLOWER_TIERS, tier.value ≠ mf) →
      validateForm t
          { discount_type := DiscountType.percent, discount_value := 10,
            min_followers := mf, start_at := "2024-01-01", end_at := "" } =
        { discount_type := none, discount_value := none, min_followers := none,
          start_at := none, end_at := none }) := by
  refine ⟨validateForm_discount_type t d, validateForm_min_followers t d, ?_⟩
  intro mf hmf
  rfl

/-- Witness for C10: the follower threshold 777 matches no tier, yet the
otherwise-valid offer passes validation with an empty error mapping. -/
theorem claim_c10_error_keys_witness :
    validateForm (fun s => s)
        { discount_type := DiscountType.percent, discount_value := 10,
          min_followers := 777, start_at := "2024-01-01", end_at := "" } =
      { discount_type := none, discount_value := none, min_followers := none,
        start_at := none, end_at := none } :=
  (claim_c10_error_keys (fun s => s)
      { discount_type := DiscountType.percent, discount_value := 10,
        min_followers := 777, start_at := "2024-01-01", end_at := "" }).2.2 777
    (by decide)

/-- Witness for C5: percent value 25 (a multiple of 5 in range) passes the
discount-value validation. -/
theorem claim_c5_discount_validation_witness :
    (validateForm (fun s => s)
        { discount_type := DiscountType.percent, discount_value := 25,
          min_followers := 1000, start_at := "2024-01-01", end_at := "" }).discount_value =
      none :=
  (claim_c5_discount_validation (fun s => s)
      { discount_type := DiscountType.percent, discount_value := 25,
        min_followers := 1000, start_at := "2024-01-01", end_at := "" }).2.2.2 25
    (by omega) (by omega) (by decide)
